import Mathlib

/-!
Verification of `evac` (src/src/lib.rs): a builder that composes several
panic handlers into the single panic hook Rust allows.

Embedding notes.  The Rust library is a single file.  We embed it at the
value level:

* `PanicInfo` is the opaque read-only snapshot handed to the hook.
* A handler (`PanicHandler<T>` in the source,
  `Fn(&PanicInfo, &mut T) -> Result<(), Box<dyn Error>>`) becomes a pure
  function `PanicInfo → T → T × Except ErrorText Unit`: the updated
  context stands for the effect of the `&mut T` argument, and a
  `Box<dyn Error>` is observed only through its `Display` text.
* `Arc<T>` is modelled by its value plus the number of additional strong
  references; `Arc::get_mut` succeeds exactly when that number is zero,
  matching `Arc::get_mut` returning `Some` iff the reference is unique.
* The closure installed by `register` becomes a `HookState` (captured
  prior hook, captured handler list, captured `Arc` context) with
  `HookState.invoke`, modelling ONE run of the closure body.  Its
  output records the `stderr` lines printed, the prior hook's own output,
  and an event trace (prior-hook invocation and handler invocations by
  index, in execution order) so that ordering claims can be stated.
  The `none` result of `invoke` is the panic of the
  `Arc::get_mut(&mut ctx).unwrap()` call.
* The closure body moves its captures: `if let Some(hook) = default_hook`
  (line 82) moves the prior hook out of the environment and
  `for hook in handlers` (line 87) moves the handler list out, and
  `Arc::get_mut(&mut ctx)` (line 79) mutably borrows a capture.  A
  closure that moves out of its captures is `FnOnce` only, while
  `std::panic::set_hook` requires `Fn`, so rustc rejects the crate
  (E0507/E0596): the closure cannot be run a second time with its
  captures intact.  `HookState.invoke` therefore returns no successor
  closure state — only the context written back through the `&mut`
  reference and the observable output of that single run.  `HookEnv`
  and `HookEnv.invokeOnce` additionally track the moved-out captures
  explicitly (`none` = slot deinitialized by a move), to show what the
  move-outs do to a second fatal event.
-/

namespace Evac

/-- Read-only snapshot of the fatal condition (`std::panic::PanicInfo`),
opaque to the library; we retain only an abstract message. -/
structure PanicInfo where
  message : String
deriving Repr, DecidableEq

/-- Display text of a `Box<dyn Error>` returned by a failing handler. -/
abbrev ErrorText := String

/-- The type of closures accepted in `evac`
(`src/src/lib.rs` lines 5-6, `pub type PanicHandler<T>`): a handler reads
the `PanicInfo`, mutates the context, and returns `Ok(())` or an error. -/
abbrev PanicHandler (T : Type) := PanicInfo → T → T × Except ErrorText Unit

/-- Model of `std::sync::Arc<T>`: the stored value together with the
number of additional strong references. -/
structure Arc (T : Type) where
  value : T
  clones : Nat

/-- `Arc::new`: a fresh `Arc` has a unique reference. -/
def Arc.new {T : Type} (v : T) : Arc T := ⟨v, 0⟩

/-- `Arc::get_mut`: mutable access succeeds exactly when the reference is
unique, i.e. the `Arc` was never cloned. -/
def Arc.get_mut {T : Type} (a : Arc T) : Option T :=
  if a.clones = 0 then some a.value else none

/-- `EvacBuilder` (`src/src/lib.rs` lines 29-32): the ordered handler
list and the `preserve_default` flag. -/
structure EvacBuilder (T : Type) where
  handlers : List (PanicHandler T)
  preserve_default : Bool

/-- `EvacBuilder::new` (`src/src/lib.rs` lines 37-42): empty of handlers
and does not preserve the default panic hook. -/
def EvacBuilder.new {T : Type} : EvacBuilder T :=
  { handlers := [], preserve_default := false }

/-- `EvacBuilder::preserve_default_panic` (`src/src/lib.rs` lines 45-49):
sets `preserve_default` and returns the builder. -/
def EvacBuilder.preserve_default_panic {T : Type} (b : EvacBuilder T) : EvacBuilder T :=
  { b with preserve_default := true }

/-- `EvacBuilder::with_handler` (`src/src/lib.rs` lines 54-58): pushes the
handler onto the end of the list and returns the builder. -/
def EvacBuilder.with_handler {T : Type} (b : EvacBuilder T) (h : PanicHandler T) :
    EvacBuilder T :=
  { b with handlers := b.handlers ++ [h] }

/-- The constant first diagnostic line printed to stderr when a handler
fails (`src/src/lib.rs` line 89). -/
def errHeader : String := "Error encountered in panic handler:"

/-- The stderr lines produced for one handler result: nothing on `Ok`,
the two `eprintln!` lines on `Err` (`src/src/lib.rs` lines 88-91). -/
def errLinesOf : Except ErrorText Unit → List String
  | Except.ok _ => []
  | Except.error e => [errHeader, e]

/-- Outcome of the handler loop of the installed hook: final context,
stderr lines printed, and the indices of the handlers run, in order. -/
structure RunOut (T : Type) where
  ctx : T
  stderr : List String
  trace : List Nat

/-- The `for hook in handlers` loop of the installed hook
(`src/src/lib.rs` lines 87-92): run each handler in list order on the
current context, logging a failing handler's error to stderr and
continuing with the next handler.  The trace records, relative to the
list run, the position of every handler executed, in execution order. -/
def runHandlers {T : Type} (info : PanicInfo) : List (PanicHandler T) → T → RunOut T
  | [], c => ⟨c, [], []⟩
  | h :: rest, c =>
    let out := runHandlers info rest (h info c).1
    ⟨out.ctx, errLinesOf (h info c).2 ++ out.stderr, 0 :: out.trace.map (· + 1)⟩

/-- One event of an invocation of the installed hook: either the preserved
prior hook running, or the registered handler at a given index running. -/
inductive HookEvent where
  | priorHook : HookEvent
  | handler : Nat → HookEvent
deriving Repr, DecidableEq

/-- The closure state captured by `std::panic::set_hook` in
`EvacBuilder::register` (`src/src/lib.rs` lines 61-94): the optionally
captured prior hook, the handler list, and the `Arc`-wrapped context.
A prior hook is observed through the output lines it emits on its own. -/
structure HookState (T : Type) where
  default_hook : Option (PanicInfo → List String)
  handlers : List (PanicHandler T)
  ctx : Arc T

/-- `EvacBuilder::register` (`src/src/lib.rs` lines 61-94): consume the
builder, capture the currently installed hook (`std::panic::take_hook`)
when `preserve_default` is set, wrap the context in an `Arc`, and install
the composite hook.  The `prior` argument stands for the hook
`take_hook` would return. -/
def EvacBuilder.register {T : Type} (b : EvacBuilder T) (ctx : T)
    (prior : PanicInfo → List String) : HookState T :=
  { default_hook := if b.preserve_default then some prior else none,
    handlers := b.handlers,
    ctx := Arc.new ctx }

/-- Output lines of the preserved prior hook during one invocation:
`if let Some(hook) = default_hook { hook(info) }`
(`src/src/lib.rs` lines 82-84). -/
def priorOutOf (dh : Option (PanicInfo → List String)) (info : PanicInfo) : List String :=
  match dh with
  | some hook => hook info
  | none => []

/-- Trace events contributed by the preserved prior hook during one
invocation: one `priorHook` event when it was captured, none otherwise. -/
def priorEventsOf (dh : Option (PanicInfo → List String)) : List HookEvent :=
  match dh with
  | some _ => [HookEvent.priorHook]
  | none => []

/-- Observable output of one invocation of the installed hook. -/
structure InvokeOut where
  stderr : List String
  events : List HookEvent
  priorOut : List String
deriving Repr, DecidableEq

/-- One run of the installed hook's closure body (`src/src/lib.rs` lines
77-93): obtain exclusive access to the context
(`Arc::get_mut(&mut ctx).unwrap()`; `none` is the panic of that
`unwrap`), run the preserved prior hook if one was captured, then run
every handler in registration order.  The result is the context written
back through the `&mut` reference, plus the observable output of the
run.  No successor closure state is returned: the body moves
`default_hook` and `handlers` out of its environment (lines 82 and 87),
so this is the one run the closure can perform — see `HookEnv` for the
capture-consuming view. -/
def HookState.invoke {T : Type} (s : HookState T) (info : PanicInfo) :
    Option (T × InvokeOut) :=
  match s.ctx.get_mut with
  | none => none
  | some c =>
    let run := runHandlers info s.handlers c
    some (run.ctx,
      { stderr := run.stderr,
        events := priorEventsOf s.default_hook ++ run.trace.map HookEvent.handler,
        priorOut := priorOutOf s.default_hook info })

/-- Ownership-faithful view of the installed closure's environment
(`src/src/lib.rs` lines 78-93).  Each captured slot may have been moved
out of the environment (`none` = deinitialized by a move).  The body
moves `default_hook` out with `if let Some(hook) = default_hook`
(line 82) and moves `handlers` out with `for hook in handlers`
(line 87); Rust therefore types the closure `FnOnce`, while
`std::panic::set_hook` requires a reusable `Fn`, and rustc rejects the
crate (E0507: cannot move out of a captured variable in an `Fn` closure;
E0596 for the `&mut ctx` borrow at line 79). -/
structure HookEnv (T : Type) where
  default_hook : Option (Option (PanicInfo → List String))
  handlers : Option (List (PanicHandler T))
  ctx : Arc T

/-- The closure environment as `register` builds it (`src/src/lib.rs`
lines 61-77): both captured slots freshly initialized, the context in a
never-cloned `Arc`. -/
def registerEnv {T : Type} (b : EvacBuilder T) (ctx : T)
    (prior : PanicInfo → List String) : HookEnv T :=
  { default_hook := some (if b.preserve_default then some prior else none),
    handlers := some b.handlers,
    ctx := Arc.new ctx }

/-- One run of the closure body over the ownership-faithful environment:
using a moved-out capture is impossible (`none` — in the source this
state is unreachable because rustc rejects the closure outright), and a
run moves both `default_hook` and `handlers` out of the environment, so
they are gone for any later fatal event. -/
def HookEnv.invokeOnce {T : Type} (s : HookEnv T) (info : PanicInfo) :
    Option (HookEnv T × InvokeOut) :=
  match s.ctx.get_mut with
  | none => none
  | some c =>
    match s.default_hook with
    | none => none
    | some dh =>
      match s.handlers with
      | none => none
      | some hs =>
        let run := runHandlers info hs c
        some ({ default_hook := none, handlers := none,
                ctx := { s.ctx with value := run.ctx } },
          { stderr := run.stderr,
            events := priorEventsOf dh ++ run.trace.map HookEvent.handler,
            priorOut := priorOutOf dh info })

/-- Indices of the registered handlers run during an invocation, in
execution order, read off the event trace. -/
def handlerIndices (evs : List HookEvent) : List Nat :=
  evs.filterMap fun ev =>
    match ev with
    | HookEvent.handler i => some i
    | HookEvent.priorHook => none

/-- The error display texts returned by failing handlers during one run
of the handler loop, in execution order, with the context threaded
through exactly as the loop threads it. -/
def errTextOf : Except ErrorText Unit → List ErrorText
  | Except.ok _ => []
  | Except.error e => [e]

/-- The in-order list of error texts of the failing handlers of one run. -/
def collectErrors {T : Type} (info : PanicInfo) : List (PanicHandler T) → T → List ErrorText
  | [], _ => []
  | h :: rest, c => errTextOf (h info c).2 ++ collectErrors info rest (h info c).1

/-- The context a handler at position `k` receives: the original context
with the first `k` handlers' mutations applied in order. -/
def ctxAfter {T : Type} (info : PanicInfo) (hs : List (PanicHandler T)) (c : T) (k : Nat) : T :=
  (hs.take k).foldl (fun a h => (h info a).1) c

end Evac

namespace Evac

/-! Helper lemmas about the handler loop and the installed hook. -/

theorem runHandlers_trace {T : Type} (info : PanicInfo) :
    ∀ (hs : List (PanicHandler T)) (c : T),
      (runHandlers info hs c).trace = List.range hs.length := by
  intro hs
  induction hs with
  | nil => intro c; rfl
  | cons h rest ih =>
      intro c
      show 0 :: (runHandlers info rest (h info c).1).trace.map (· + 1) =
        List.range (rest.length + 1)
      rw [ih, List.range_succ_eq_map]

theorem runHandlers_ctx {T : Type} (info : PanicInfo) :
    ∀ (hs : List (PanicHandler T)) (c : T),
      (runHandlers info hs c).ctx = hs.foldl (fun a h => (h info a).1) c := by
  intro hs
  induction hs with
  | nil => intro c; rfl
  | cons h rest ih => intro c; exact ih ((h info c).1)

theorem errLinesOf_eq_flatMap (r : Except ErrorText Unit) :
    errLinesOf r = (errTextOf r).flatMap (fun e => [errHeader, e]) := by
  cases r <;> rfl

theorem runHandlers_stderr {T : Type} (info : PanicInfo) :
    ∀ (hs : List (PanicHandler T)) (c : T),
      (runHandlers info hs c).stderr =
        (collectErrors info hs c).flatMap (fun e => [errHeader, e]) := by
  intro hs
  induction hs with
  | nil => intro c; rfl
  | cons h rest ih =>
      intro c
      show errLinesOf (h info c).2 ++ (runHandlers info rest (h info c).1).stderr =
        (errTextOf (h info c).2 ++ collectErrors info rest (h info c).1).flatMap
          (fun e => [errHeader, e])
      rw [List.flatMap_append, ih, errLinesOf_eq_flatMap]

theorem handlerIndices_append (l1 l2 : List HookEvent) :
    handlerIndices (l1 ++ l2) = handlerIndices l1 ++ handlerIndices l2 :=
  List.filterMap_append l1 l2 _

theorem handlerIndices_map_handler (l : List Nat) :
    handlerIndices (l.map HookEvent.handler) = l := by
  induction l with
  | nil => rfl
  | cons a t ih => simpa [handlerIndices, List.filterMap_cons] using ih

theorem handlerIndices_priorEvents (dh : Option (PanicInfo → List String)) :
    handlerIndices (priorEventsOf dh) = [] := by
  cases dh <;> simp [priorEventsOf, handlerIndices, List.filterMap_cons]

theorem invoke_of_clones_eq_zero {T : Type} (s : HookState T) (info : PanicInfo)
    (h0 : s.ctx.clones = 0) :
    s.invoke info =
      some ((runHandlers info s.handlers s.ctx.value).ctx,
        { stderr := (runHandlers info s.handlers s.ctx.value).stderr,
          events := priorEventsOf s.default_hook ++
            (runHandlers info s.handlers s.ctx.value).trace.map HookEvent.handler,
          priorOut := priorOutOf s.default_hook info }) := by
  have hg : s.ctx.get_mut = some s.ctx.value := by
    simp [Arc.get_mut, h0]
  unfold HookState.invoke
  rw [hg]

/-- C9: `EvacBuilder::new()` always returns a builder whose handler list
is empty and whose `preserve_default` flag is `false`; it is a total
function and cannot fail. -/
theorem new_empty_no_preserve (T : Type) :
    (EvacBuilder.new : EvacBuilder T).handlers = [] ∧
    (EvacBuilder.new : EvacBuilder T).preserve_default = false :=
  ⟨rfl, rfl⟩

/-- C8: `register(context)` succeeds for every builder state, the empty
one included: it is a total function equal to installing the composite
hook state, with no error outcome; handler errors can only arise in
later invocations, never during registration. -/
theorem register_total_no_error (T : Type) (b : EvacBuilder T) (c : T)
    (prior : PanicInfo → List String) :
    b.register c prior =
      { default_hook := if b.preserve_default then some prior else none,
        handlers := b.handlers,
        ctx := Arc.new c } :=
  rfl

/-- C10: `with_handler` appends exactly one handler at the end and leaves
`preserve_default` unchanged; `preserve_default_panic` sets
`preserve_default` and leaves the handler list unchanged; hence
`preserve_default_panic` is idempotent and the two operations commute. -/
theorem with_handler_preserve_frame (T : Type) (b : EvacBuilder T) (h : PanicHandler T) :
    (b.with_handler h).handlers = b.handlers ++ [h] ∧
    (b.with_handler h).preserve_default = b.preserve_default ∧
    b.preserve_default_panic.handlers = b.handlers ∧
    b.preserve_default_panic.preserve_default = true ∧
    b.preserve_default_panic.preserve_default_panic = b.preserve_default_panic ∧
    (b.with_handler h).preserve_default_panic = b.preserve_default_panic.with_handler h :=
  ⟨rfl, rfl, rfl, rfl, rfl, rfl⟩

/-- C1: for handlers H1..Hn added via `with_handler` in that order and then
registered via `register`, a fatal event invokes them in exactly
registration order (indices `0, 1, ..., n-1` of the handler list), whatever
each handler returns: the event trace of an invocation of the installed
hook lists every handler index in increasing order. -/
theorem handlers_run_in_registration_order (T : Type) (b : EvacBuilder T) (c : T)
    (prior : PanicInfo → List String) (info : PanicInfo) :
    ∃ c1 out, (b.register c prior).invoke info = some (c1, out) ∧
      handlerIndices out.events = List.range b.handlers.length := by
  refine ⟨_, _, invoke_of_clones_eq_zero (b.register c prior) info rfl, ?_⟩
  show handlerIndices (priorEventsOf (b.register c prior).default_hook ++
    (runHandlers info b.handlers c).trace.map HookEvent.handler) =
    List.range b.handlers.length
  rw [handlerIndices_append, handlerIndices_priorEvents, handlerIndices_map_handler,
    runHandlers_trace, List.nil_append]

/-- C4: the claim says that with preservation enabled the previously
installed hook runs exactly once on EVERY fatal event, before any
handler.  The code contradicts it: `if let Some(hook) = default_hook`
(`src/src/lib.rs` line 82) moves the captured hook out of the closure
environment on its first use, so it cannot run on any later event — the
closure is thereby `FnOnce`-only where `set_hook` requires `Fn`, and
rustc rejects the crate.  Evaluated at the failing input (preservation
enabled, prior hook printing `"x"`, one handler appending `"y"`, two
sequential fatal events): the first event does run the prior hook once,
first; after it the `default_hook` slot is deinitialized and the second
event cannot run at all, let alone invoke the prior hook. -/
theorem prior_hook_consumed_after_first_event :
    ∃ env1 out1,
      (registerEnv (((EvacBuilder.new : EvacBuilder String).preserve_default_panic).with_handler
          (fun _ s => (s ++ "y", Except.ok ()))) "" (fun _ => ["x"])).invokeOnce
        ⟨"p1"⟩ = some (env1, out1) ∧
      out1.priorOut = ["x"] ∧
      out1.events = [HookEvent.priorHook, HookEvent.handler 0] ∧
      env1.default_hook = none ∧
      env1.invokeOnce ⟨"p2"⟩ = none := by
  exact ⟨_, _, rfl, rfl, rfl, rfl, rfl⟩

/-- C5: within one hook invocation the context is threaded sequentially:
each handler receives the context as mutated by all earlier handlers, a
failing handler's partial mutation included (the fold ignores the returned
`Result`), so the final context is the left fold of the handlers over the
initial context; in particular with handler A appending `"a"` and handler
B appending `"b"`, both succeeding, one fatal event leaves the context
equal to `"ab"`. -/
theorem context_mutations_visible_sequentially :
    (∀ (T : Type) (b : EvacBuilder T) (c : T) (prior : PanicInfo → List String)
        (info : PanicInfo),
      ∃ c1 out, (b.register c prior).invoke info = some (c1, out) ∧
        c1 = b.handlers.foldl (fun a h => (h info a).1) c) ∧
    (∃ c1 out,
      ((((EvacBuilder.new : EvacBuilder String).with_handler
            (fun _ s => (s ++ "a", Except.ok ()))).with_handler
            (fun _ s => (s ++ "b", Except.ok ()))).register "" (fun _ => [])).invoke
          ⟨"m"⟩ = some (c1, out) ∧
        c1 = "ab") := by
  constructor
  · intro T b c prior info
    refine ⟨_, _, invoke_of_clones_eq_zero (b.register c prior) info rfl, ?_⟩
    show (runHandlers info b.handlers c).ctx = _
    rw [runHandlers_ctx]
  · refine ⟨_, _, invoke_of_clones_eq_zero _ ⟨"m"⟩ rfl, ?_⟩
    rfl

/-- C6: for every handler failure with display text `e`, the hook writes
to stderr exactly the two lines `"Error encountered in panic handler:"`
and `e`, and nothing else for that failure: the whole stderr output of an
invocation is exactly the in-order error texts of the failing handlers,
each expanded to those two lines. -/
theorem stderr_two_lines_per_failure (T : Type) (b : EvacBuilder T) (c : T)
    (prior : PanicInfo → List String) (info : PanicInfo) :
    ∃ c1 out, (b.register c prior).invoke info = some (c1, out) ∧
      out.stderr = (collectErrors info b.handlers c).flatMap (fun e => [errHeader, e]) := by
  refine ⟨_, _, invoke_of_clones_eq_zero (b.register c prior) info rfl, ?_⟩
  show (runHandlers info b.handlers c).stderr = _
  rw [runHandlers_stderr]

/-- C3: the claim says that after one `register` every invocation of the
installed hook — a second and any later fatal event included — executes
the complete handler list, no handler being consumed by an earlier
invocation.  The code contradicts it: `for hook in handlers`
(`src/src/lib.rs` line 87) moves the handler list out of the closure
environment on the first run, so the handlers ARE consumed — the closure
is thereby `FnOnce`-only where `set_hook` requires `Fn`, and rustc
rejects the crate.  Evaluated at the failing input (one handler appending
`"y"`, two sequential fatal events): the first event runs the full list,
after it the `handlers` slot is deinitialized, and the second event
cannot run the list — or anything — at all. -/
theorem second_event_handlers_consumed :
    ∃ env1 out1,
      (registerEnv ((EvacBuilder.new : EvacBuilder String).with_handler
          (fun _ s => (s ++ "y", Except.ok ()))) "" (fun _ => [])).invokeOnce
        ⟨"p1"⟩ = some (env1, out1) ∧
      handlerIndices out1.events = [0] ∧
      env1.handlers = none ∧
      env1.invokeOnce ⟨"p2"⟩ = none := by
  exact ⟨_, _, rfl, rfl, rfl, rfl⟩

/-- C7: the `Arc::get_mut(&mut ctx).unwrap()` assertion performed at
invocation time never fails, because the `Arc` created by `register` is
never cloned: its reference stays unique, `get_mut` returns `some` at
registration time, and the invocation of the installed closure — the one
run the program can perform, its captures being moved out by that run —
does not take the panic branch.  Concurrent re-entry for overlapping
fatal events, excluded by the claim's precondition, is outside this
sequential model. -/
theorem get_mut_assert_never_fails (T : Type) (b : EvacBuilder T) (c : T)
    (prior : PanicInfo → List String) (info : PanicInfo) :
    (b.register c prior).ctx.clones = 0 ∧
    (b.register c prior).ctx.get_mut = some c ∧
    ∃ c1 out, (b.register c prior).invoke info = some (c1, out) := by
  exact ⟨rfl, rfl, _, _, invoke_of_clones_eq_zero (b.register c prior) info rfl⟩

theorem mem_collectErrors_of_handler_error {T : Type} (info : PanicInfo) (e : ErrorText) :
    ∀ (hs : List (PanicHandler T)) (c : T) (i : Nat) (hi : i < hs.length),
      ((hs.get ⟨i, hi⟩) info (ctxAfter info hs c i)).2 = Except.error e →
      e ∈ collectErrors info hs c := by
  intro hs
  induction hs with
  | nil => intro c i hi; exact absurd hi (by simp)
  | cons h rest ih =>
      intro c i hi herr
      cases i with
      | zero =>
          have h0 : (h info c).2 = Except.error e := herr
          show e ∈ errTextOf (h info c).2 ++ collectErrors info rest (h info c).1
          rw [h0]
          exact List.mem_append_left _ (by simp [errTextOf])
      | succ j =>
          have hj : j < rest.length := Nat.lt_of_succ_lt_succ hi
          have hc : ctxAfter info (h :: rest) c (j + 1) =
              ctxAfter info rest ((h info c).1) j := by
            simp [ctxAfter, List.take_succ_cons]
          have herr2 : ((rest.get ⟨j, hj⟩) info (ctxAfter info rest ((h info c).1) j)).2 =
              Except.error e := by
            rw [← hc]; exact herr
          show e ∈ errTextOf (h info c).2 ++ collectErrors info rest (h info c).1
          exact List.mem_append_right _ (ih ((h info c).1) j hj herr2)

theorem errPair_split_of_mem (e : ErrorText) :
    ∀ (errs : List ErrorText), e ∈ errs →
      ∃ l r, errs.flatMap (fun x => [errHeader, x]) = l ++ [errHeader, e] ++ r := by
  intro errs
  induction errs with
  | nil => intro hmem; exact absurd hmem (List.not_mem_nil e)
  | cons a t ih =>
      intro hmem
      rcases List.mem_cons.mp hmem with heq | hmem2
      · subst heq
        exact ⟨[], t.flatMap (fun x => [errHeader, x]), by simp⟩
      · obtain ⟨l, r, hlr⟩ := ih hmem2
        exact ⟨[errHeader, a] ++ l, r, by simp [hlr]⟩

/-- C2: a registered handler at position `i` that returns an error with
display text `e` during a hook invocation has its error absorbed inside
the hook — the invocation still succeeds, the two-line diagnostic appears
on stderr — and every later handler still runs in that same invocation:
the trace still lists every handler index in order. -/
theorem failing_handler_never_halts_chain (T : Type) (b : EvacBuilder T) (c : T)
    (prior : PanicInfo → List String) (info : PanicInfo) (i : Nat) (e : ErrorText)
    (hi : i < b.handlers.length)
    (herr : ((b.handlers.get ⟨i, hi⟩) info (ctxAfter info b.handlers c i)).2 =
      Except.error e) :
    ∃ c1 out, (b.register c prior).invoke info = some (c1, out) ∧
      handlerIndices out.events = List.range b.handlers.length ∧
      ∃ l r, out.stderr = l ++ [errHeader, e] ++ r := by
  refine ⟨_, _, invoke_of_clones_eq_zero (b.register c prior) info rfl, ?_, ?_⟩
  · show handlerIndices (priorEventsOf (b.register c prior).default_hook ++
      (runHandlers info b.handlers c).trace.map HookEvent.handler) =
      List.range b.handlers.length
    rw [handlerIndices_append, handlerIndices_priorEvents, handlerIndices_map_handler,
      runHandlers_trace, List.nil_append]
  · obtain ⟨l, r, hlr⟩ := errPair_split_of_mem e (collectErrors info b.handlers c)
      (mem_collectErrors_of_handler_error info e b.handlers c i hi herr)
    refine ⟨l, r, ?_⟩
    show (runHandlers info b.handlers c).stderr = l ++ [errHeader, e] ++ r
    rw [runHandlers_stderr, hlr]

/-- Witness for C2: two registered handlers, the first failing with
`"boom"`, the second appending `"b"`; the invocation succeeds, both
handlers appear in the trace, and the two diagnostic lines are in the
stderr output. -/
theorem failing_handler_never_halts_chain_witness :
    ∃ c1 out,
      ((((EvacBuilder.new : EvacBuilder String).with_handler
            (fun _ s => (s, Except.error "boom"))).with_handler
            (fun _ s => (s ++ "b", Except.ok ()))).register "" (fun _ => [])).invoke
          ⟨"m"⟩ = some (c1, out) ∧
      handlerIndices out.events =
        List.range (((EvacBuilder.new : EvacBuilder String).with_handler
            (fun _ s => (s, Except.error "boom"))).with_handler
            (fun _ s => (s ++ "b", Except.ok ()))).handlers.length ∧
      ∃ l r, out.stderr = l ++ [errHeader, "boom"] ++ r :=
  failing_handler_never_halts_chain String
    (((EvacBuilder.new : EvacBuilder String).with_handler
        (fun _ s => (s, Except.error "boom"))).with_handler
        (fun _ s => (s ++ "b", Except.ok ())))
    "" (fun _ => []) ⟨"m"⟩ 0 "boom" (by decide) rfl

end Evac
